import Mathlib

/-!
Verification development for the botnana client engine (src/botnana.rs).

The engine keeps a WebSocket session with a motion-control server and a
Modbus TCP session with field devices.  We give a shallow embedding of the
pieces the specification claims talk about: message dispatch
(handle_message), the handler registries, the poll-thread command scheduler
(pop_scripts_buffer / send_internal_query_command), the connect guard and
error cleanup, the WebSocket watchdog client, and the Modbus register
chunking loop.  Boundary effects (C callbacks, channel sends, WebSocket
operations) are recorded as explicit action traces.
-/

/-- Split a character list at every occurrence of the separator, keeping
empty pieces, exactly as Rust str::split with a single-char pattern does
(so the result is never empty, and splitting the empty string yields one
empty piece). -/
def splitChAux (c : Char) : List Char → List (List Char)
  | [] => [[]]
  | x :: xs =>
    let r := splitChAux c xs
    if x = c then [] :: r
    else
      match r with
      | [] => [[x]]
      | y :: ys => (x :: y) :: ys

/-- Rust s.split(c) for a single-char pattern, as a list of strings. -/
def splitCh (c : Char) (s : String) : List String :=
  (splitChAux c s.data).map String.mk

/-- Rust str::trim_start: drop leading whitespace. -/
def trimStart (s : String) : String :=
  String.mk (s.data.dropWhile Char.isWhitespace)

/-- handle_message appends a newline to the raw message before handing it to
the on_message callback when the message does not already end in one. -/
def withNewline (s : String) : String :=
  if s.data.getLast? = some '\n' then s else s ++ "\n"

/-- Digit-accumulator for unsigned decimal parsing. -/
def parseNatDigitsAux : List Char → Nat → Option Nat
  | [], acc => some acc
  | c :: cs, acc =>
    if c.isDigit then parseNatDigitsAux cs (acc * 10 + (c.toNat - 48)) else none

/-- Rust str::parse for an unsigned integer type, before the range check:
an optional leading plus sign followed by one or more decimal digits. -/
def rustParseNat (s : String) : Option Nat :=
  match s.data with
  | [] => none
  | '+' :: rest => if rest.isEmpty then none else parseNatDigitsAux rest 0
  | c :: cs => parseNatDigitsAux (c :: cs) 0

/-- Rust str::parse::<u32> (value must fit in 32 bits). -/
def parseU32 (s : String) : Option Nat :=
  (rustParseNat s).bind fun x => if x < 4294967296 then some x else none

/-- Rust str::parse::<usize> on the 64-bit targets the crate builds for. -/
def parseUsize (s : String) : Option Nat :=
  (rustParseNat s).bind fun x => if x < 18446744073709551616 then some x else none

/-- Store a value into one slot of the 2-slot index pair (out-of-range slot
numbers leave the pair unchanged; they never occur, since len is at most 3). -/
def setSlot (p : Nat × Nat) : Nat → Nat → Nat × Nat
  | 0, x => (x, p.2)
  | 1, x => (p.1, x)
  | _ + 2, _ => p

/-- The tag-index extraction loop of handle_message, as written in the
source: a 2-slot array starts as [0, 0], len = min(segments, 3), and for
each i in 1..len a successful parse of segment i is stored in slot
len - i - 1 (a failed parse leaves the slot untouched).  The result pair is
(tag_index[0], tag_index[1]).  The loop appears twice in the source, once
parsing usize for the internal hook and once parsing u32 for the tagname
registry; the parser is a parameter. -/
def tag_index_loop (parse : String → Option Nat) (tag : List String) :
    Nat × Nat :=
  let len := min tag.length 3
  (List.range' 1 (len - 1)).foldl
    (fun acc i =>
      match parse (tag.getD i "") with
      | some x => setSlot acc (len - i - 1) x
      | none => acc)
    (0, 0)

/-- Closed form of the index extraction: the segment after the key lands in
slot 0 for a two-segment key, and for three or more segments the second
segment lands in slot 1 and the third in slot 0 (segments past the third
are ignored); missing or unparsable segments leave 0. -/
def tagIndices (parse : String → Option Nat) : List String → Nat × Nat
  | [] => (0, 0)
  | [_] => (0, 0)
  | [_, s1] => ((parse s1).getD 0, 0)
  | _ :: s1 :: s2 :: _ => ((parse s2).getD 0, (parse s1).getD 0)

/-- Payload of an outbound transmission.  evaluate wraps its script in a
fixed JSON-RPC script.evaluate envelope and the poll thread sends a fixed
motion.poll frame; we record the payload before the (injective) JSON
wrapping instead of modelling serde_json string escaping. -/
inductive Payload where
  | raw (msg : String)
  | eval (script : String)
  | poll
deriving DecidableEq, Repr

/-- Observable boundary effects of the engine: C callbacks, the mpsc channel
feeding the outbound relay, direct WebSocket sends, and thread spawns. -/
inductive Act where
  | onOpen (msg : String)
  | onError (msg : String)
  | onSend (p : Payload)
  | onMessage (msg : String)
  | chanSend (p : Payload)
  | wsSend (p : Payload)
  | wsShutdown
  | spawnThread (name : String)
  | internalCb (key : String) (i0 i1 : Nat) (value : String)
  | tagnameCb (cb : Nat) (i0 i1 : Nat) (value : String)
  | tagCb (cb : Nat) (value : String)
deriving DecidableEq, Repr

/-- An expiring tag handler: count (0 = unlimited) and an identifier that
models the (pointer, callback) pair registered from C. -/
structure CallbackHandler where
  count : Nat
  id : Nat
deriving DecidableEq, Repr

/-- An expiring tagname handler (called with the two parsed indices). -/
structure TagCallbackHandler where
  count : Nat
  id : Nat
deriving DecidableEq, Repr

/-- Association-list model of the HashMap registries (get / in-place set /
remove are the only operations handle_message performs). -/
def alistGet {α : Type} (m : List (String × α)) (k : String) : Option α :=
  (m.find? (fun p => p.1 == k)).map (fun p => p.2)

/-- Replace the value stored under a key (used where the Rust code mutates
the vector obtained from get_mut in place). -/
def alistSet {α : Type} (m : List (String × α)) (k : String) (v : α) :
    List (String × α) :=
  m.map (fun p => if p.1 == k then (k, v) else p)

/-- HashMap::remove. -/
def alistRemove {α : Type} (m : List (String × α)) (k : String) :
    List (String × α) :=
  m.filter (fun p => p.1 != k)

/-- State of the engine: one field per Botnana field the claims touch.
Option-typed Rust fields holding channels, senders and callbacks are
modelled by their presence (Bool). -/
structure Botnana where
  user_sender : Bool
  ws_out : Bool
  tag_handlers : List (String × List CallbackHandler)
  tagname_handlers : List (String × List TagCallbackHandler)
  scripts_buffer : List String
  scripts_pop_count : Nat
  poll_interval_ms : Nat
  is_connected : Bool
  is_connecting : Bool
  on_open_cb : Bool
  on_error_cb : Bool
  on_send_cb : Bool
  on_message_cb : Bool
  internal_keys : List String
  init_queries : List String
  cyclic_queries : List String
  last_query : Nat
  query_count : Nat
deriving DecidableEq, Repr

/-- Botnana::new(): the engine constructed with its default configuration. -/
def Botnana.new : Botnana where
  user_sender := false
  ws_out := false
  tag_handlers := []
  tagname_handlers := []
  scripts_buffer := []
  scripts_pop_count := 8
  poll_interval_ms := 10
  is_connected := false
  is_connecting := false
  on_open_cb := false
  on_error_cb := false
  on_send_cb := false
  on_message_cb := false
  internal_keys := []
  init_queries := []
  cyclic_queries := []
  last_query := 0
  query_count := 3

/-- Expiry step applied to a handler after it has been invoked: a zero count
means unlimited (kept untouched), a count of one expires the handler, and a
larger count is decremented. -/
def CallbackHandler.step (h : CallbackHandler) : Option CallbackHandler :=
  if h.count = 0 then some h
  else if h.count = 1 then none
  else some { h with count := h.count - 1 }

/-- Expiry step for a tagname handler. -/
def TagCallbackHandler.step (h : TagCallbackHandler) : Option TagCallbackHandler :=
  if h.count = 0 then some h
  else if h.count = 1 then none
  else some { h with count := h.count - 1 }

/-- The rev() invocation loop over one tag-handler vector: indices are
visited from the last to the first (so later registrations run first), each
handler is invoked once, and expired handlers are removed in place. -/
def run_tag_handlers (v : String) : List CallbackHandler →
    List Act × List CallbackHandler
  | [] => ([], [])
  | h :: rest =>
    let r := run_tag_handlers v rest
    (r.1 ++ [Act.tagCb h.id v],
      match h.step with
      | none => r.2
      | some h2 => h2 :: r.2)

/-- The rev() invocation loop over one tagname-handler vector. -/
def run_tagname_handlers (i0 i1 : Nat) (v : String) : List TagCallbackHandler →
    List Act × List TagCallbackHandler
  | [] => ([], [])
  | h :: rest =>
    let r := run_tagname_handlers i0 i1 v rest
    (r.1 ++ [Act.tagnameCb h.id i0 i1 v],
      match h.step with
      | none => r.2
      | some h2 => h2 :: r.2)

/-- First dot-segment of an event key (the split is never empty). -/
def key0 (event : String) : String :=
  (splitCh '.' event).headD ""

/-- Dispatch of one (event key, value) pair, the body of the inner token
loop of handle_message: split the key on dots, run the internal hook looked
up by segment 0, then the tagname registry looked up by segment 0 (pruning
expired handlers and removing the key when its vector empties), then the tag
registry looked up by the full event key (same pruning). -/
def dispatch_event (st : Botnana) (event e : String) : List Act × Botnana :=
  let tag := splitCh '.' event
  let t0 := tag.headD ""
  let iActs :=
    if st.internal_keys.contains t0 then
      let ti := tag_index_loop parseUsize tag
      [Act.internalCb t0 ti.1 ti.2 e]
    else []
  let tn :=
    match alistGet st.tagname_handlers t0 with
    | some hs =>
      let ti := tag_index_loop parseU32 tag
      let r := run_tagname_handlers ti.1 ti.2 e hs
      (r.1, if r.2.isEmpty then alistRemove st.tagname_handlers t0
            else alistSet st.tagname_handlers t0 r.2)
    | none => ([], st.tagname_handlers)
  let tg :=
    match alistGet st.tag_handlers event with
    | some hs =>
      let r := run_tag_handlers e hs
      (r.1, if r.2.isEmpty then alistRemove st.tag_handlers event
            else alistSet st.tag_handlers event r.2)
    | none => ([], st.tag_handlers)
  (iActs ++ tn.1 ++ tg.1,
    { st with tagname_handlers := tn.2, tag_handlers := tg.2 })

/-- The token loop of handle_message over one line: tokens alternate between
event keys (leading whitespace trimmed) and values, tracked by the next_tag
flag; a trailing key with no value is dropped when the tokens run out. -/
def token_loop (st : Botnana) : Bool → String → List String → List Act × Botnana
  | _, _, [] => ([], st)
  | true, _, e :: rest => token_loop st false (trimStart e) rest
  | false, event, e :: rest =>
    let r1 := dispatch_event st event e
    let r2 := token_loop r1.2 true event rest
    (r1.1 ++ r2.1, r2.2)

/-- The line loop of handle_message: each line is split on the pipe
character and fed to the token loop, in frame order. -/
def line_loop (st : Botnana) : List String → List Act × Botnana
  | [] => ([], st)
  | l :: ls =>
    let r1 := token_loop st true "" (splitCh '|' l)
    let r2 := line_loop r1.2 ls
    (r1.1 ++ r2.1, r2.2)

/-- Botnana::handle_message: invoke the raw on_message callback on a
non-empty message (newline-terminated for the C side), then split the frame
into newline-separated lines and dispatch them.  The trailing
data_pool_forth derived-state hook lives outside this file's source and
performs no boundary action modelled here. -/
def handle_message (st : Botnana) (msg : String) : List Act × Botnana :=
  let raw :=
    if msg.length > 0 then
      if st.on_message_cb then [Act.onMessage (withNewline msg)] else []
    else []
  let r := line_loop st (splitCh '\n' msg)
  (raw ++ r.1, r.2)

/-- Botnana::set_tag_callback: append a handler under the exact event key. -/
def set_tag_callback (st : Botnana) (tag : String) (count : Nat) (cb : Nat) :
    Botnana :=
  match alistGet st.tag_handlers tag with
  | some hs =>
    { st with tag_handlers :=
        alistSet st.tag_handlers tag (hs ++ [⟨count, cb⟩]) }
  | none =>
    { st with tag_handlers := st.tag_handlers ++ [(tag, [⟨count, cb⟩])] }

/-- Botnana::set_tagname_callback: append a handler under a tagname key. -/
def set_tagname_callback (st : Botnana) (name : String) (count : Nat) (cb : Nat) :
    Botnana :=
  match alistGet st.tagname_handlers name with
  | some hs =>
    { st with tagname_handlers :=
        alistSet st.tagname_handlers name (hs ++ [⟨count, cb⟩]) }
  | none =>
    { st with tagname_handlers := st.tagname_handlers ++ [(name, [⟨count, cb⟩])] }

/-- The event/value pairing a line's token list produces: tokens alternate
key, value, key, value, and a trailing key without a value is dropped;
event keys get their leading whitespace trimmed. -/
def pairsOf : List String → List (String × String)
  | [] => []
  | [_] => []
  | e :: v :: rest => (trimStart e, v) :: pairsOf rest

/-- All (event key, value) pairs of a frame, lines in frame order. -/
def msgPairs (msg : String) : List (String × String) :=
  ((splitCh '\n' msg).map (fun l => pairsOf (splitCh '|' l))).flatten

/-- Sequential dispatch of a list of (event key, value) pairs, threading the
registry state and concatenating the action traces. -/
def dispatch_pairs (st : Botnana) : List (String × String) → List Act × Botnana
  | [] => ([], st)
  | p :: ps =>
    let r1 := dispatch_event st p.1 p.2
    let r2 := dispatch_pairs r1.2 ps
    (r1.1 ++ r2.1, r2.2)

/-- Expected internal-hook trace of one pair, read off the pre-dispatch
state: one invocation when segment 0 is a registered internal key. -/
def internal_obs (st : Botnana) (event e : String) : List Act :=
  if st.internal_keys.contains (key0 event) then
    let ti := tagIndices parseUsize (splitCh '.' event)
    [Act.internalCb (key0 event) ti.1 ti.2 e]
  else []

/-- Expected tagname-registry trace of one pair: the handlers stored under
segment 0, most recently registered first (registration appends, dispatch
walks the vector backwards). -/
def tagname_obs (st : Botnana) (event e : String) : List Act :=
  let ti := tagIndices parseU32 (splitCh '.' event)
  ((alistGet st.tagname_handlers (key0 event)).getD []).reverse.map
    (fun h => Act.tagnameCb h.id ti.1 ti.2 e)

/-- Expected tag-registry trace of one pair: the handlers stored under the
full event key, most recently registered first. -/
def tag_obs (st : Botnana) (event e : String) : List Act :=
  ((alistGet st.tag_handlers event).getD []).reverse.map
    (fun h => Act.tagCb h.id e)

/-- Expected raw-message callback trace of a frame. -/
def raw_obs (st : Botnana) (msg : String) : List Act :=
  if msg.length > 0 then
    if st.on_message_cb then [Act.onMessage (withNewline msg)] else []
  else []

theorem tag_index_loop_eq (parse : String → Option Nat) (tag : List String) :
    tag_index_loop parse tag = tagIndices parse tag := by
  match tag with
  | [] => rfl
  | [_] => rfl
  | [s0, s1] =>
    have hlen : min ([s0, s1] : List String).length 3 = 2 := by
      simp [List.length_cons]
    simp only [tag_index_loop, hlen]
    have hr : List.range' 1 (2 - 1) = [1] := rfl
    rw [hr]
    simp only [List.foldl_cons, List.foldl_nil, List.getD_cons_succ,
      List.getD_cons_zero, tagIndices]
    cases parse s1 <;> simp [setSlot]
  | s0 :: s1 :: s2 :: rest =>
    have hlen : min (s0 :: s1 :: s2 :: rest).length 3 = 3 := by
      simp [List.length_cons]
    simp only [tag_index_loop, hlen]
    have hr : List.range' 1 (3 - 1) = [1, 2] := rfl
    rw [hr]
    simp only [List.foldl_cons, List.foldl_nil, List.getD_cons_succ,
      List.getD_cons_zero, tagIndices]
    cases parse s1 <;> cases parse s2 <;> simp [setSlot]

theorem run_tag_handlers_trace (v : String) (hs : List CallbackHandler) :
    (run_tag_handlers v hs).1 = hs.reverse.map (fun h => Act.tagCb h.id v) := by
  induction hs with
  | nil => rfl
  | cons h rest ih => simp [run_tag_handlers, ih]

theorem run_tagname_handlers_trace (i0 i1 : Nat) (v : String)
    (hs : List TagCallbackHandler) :
    (run_tagname_handlers i0 i1 v hs).1 =
      hs.reverse.map (fun h => Act.tagnameCb h.id i0 i1 v) := by
  induction hs with
  | nil => rfl
  | cons h rest ih => simp [run_tagname_handlers, ih]

theorem dispatch_event_trace (st : Botnana) (event e : String) :
    (dispatch_event st event e).1 =
      internal_obs st event e ++ tagname_obs st event e ++ tag_obs st event e := by
  cases hn : alistGet st.tagname_handlers ((splitCh '.' event).head?.getD "") <;>
    cases hg : alistGet st.tag_handlers event <;>
      simp [dispatch_event, internal_obs, tagname_obs, tag_obs, key0, hn, hg,
        tag_index_loop_eq, run_tag_handlers_trace, run_tagname_handlers_trace]

theorem token_loop_eq : ∀ (ts : List String) (st : Botnana) (ev : String),
    token_loop st true ev ts = dispatch_pairs st (pairsOf ts)
  | [], _, _ => rfl
  | [_], _, _ => rfl
  | e :: v :: rest, st, ev => by
    simp only [token_loop, pairsOf, dispatch_pairs]
    rw [token_loop_eq rest]

theorem dispatch_pairs_append (a b : List (String × String)) (st : Botnana) :
    dispatch_pairs st (a ++ b) =
      ((dispatch_pairs st a).1 ++ (dispatch_pairs (dispatch_pairs st a).2 b).1,
       (dispatch_pairs (dispatch_pairs st a).2 b).2) := by
  induction a generalizing st with
  | nil => simp [dispatch_pairs]
  | cons p ps ih => simp [dispatch_pairs, ih]

theorem line_loop_eq (ls : List String) (st : Botnana) :
    line_loop st ls =
      dispatch_pairs st ((ls.map (fun l => pairsOf (splitCh '|' l))).flatten) := by
  induction ls generalizing st with
  | nil => rfl
  | cons l ls ih =>
    simp only [line_loop, List.map_cons, List.flatten_cons, dispatch_pairs_append,
      token_loop_eq, ih]

/-- C1: handle_message processes lines in frame order and, for each
(event key, value) pair, runs the internal hook (segment-0 lookup), then the
indexed tagname registry (segment-0 lookup), then the simple tag registry
(full-key lookup), all before the next pair; within one registry key the
handlers fire most-recently-registered first (registration appends to the
vector, dispatch walks it backwards, hence the reverse in the observation
functions).  The first conjunct flattens the nested line/token loops into
the in-order pair sequence; the second gives the per-pair path order. -/
theorem claim_C1_dispatch_order :
    (∀ st msg, (handle_message st msg).1 =
      raw_obs st msg ++ (dispatch_pairs st (msgPairs msg)).1) ∧
    (∀ st event e, (dispatch_event st event e).1 =
      internal_obs st event e ++ tagname_obs st event e ++ tag_obs st event e) := by
  refine ⟨fun st msg => ?_, dispatch_event_trace⟩
  simp [handle_message, raw_obs, msgPairs, line_loop_eq]

/-- Dispatch of the same (event key, value) pair n times in a row, the
registry state threaded through, as produced by n matching inbound events. -/
def dispatch_iter (event e : String) : Botnana → Nat → List Act × Botnana
  | st, 0 => ([], st)
  | st, n + 1 =>
    let r1 := dispatch_event st event e
    let r2 := dispatch_iter event e r1.2 n
    (r1.1 ++ r2.1, r2.2)

/-- Recognizer for tagname-registry invocations in a trace. -/
def isTagnameAct : Act → Bool
  | .tagnameCb _ _ _ _ => true
  | _ => false

/-- Recognizer for tag-registry invocations in a trace. -/
def isTagAct : Act → Bool
  | .tagCb _ _ => true
  | _ => false

/-- A registry map never stores an empty handler vector. -/
def registry_wf {α : Type} (m : List (String × List α)) : Prop :=
  ∀ p ∈ m, p.2 ≠ []

theorem dispatch_event_tn (st : Botnana) (event e : String) :
    (dispatch_event st event e).2.tagname_handlers =
      match alistGet st.tagname_handlers (key0 event) with
      | some hs =>
        let ti := tag_index_loop parseU32 (splitCh '.' event)
        let r := run_tagname_handlers ti.1 ti.2 e hs
        if r.2.isEmpty then alistRemove st.tagname_handlers (key0 event)
        else alistSet st.tagname_handlers (key0 event) r.2
      | none => st.tagname_handlers := by
  cases h : alistGet st.tagname_handlers ((splitCh '.' event).head?.getD "") <;>
    simp [dispatch_event, key0, h]

theorem dispatch_event_tg (st : Botnana) (event e : String) :
    (dispatch_event st event e).2.tag_handlers =
      match alistGet st.tag_handlers event with
      | some hs =>
        let r := run_tag_handlers e hs
        if r.2.isEmpty then alistRemove st.tag_handlers event
        else alistSet st.tag_handlers event r.2
      | none => st.tag_handlers := by
  cases h : alistGet st.tag_handlers event <;> simp [dispatch_event, h]

theorem dispatch_event_other_fields (st : Botnana) (event e : String) :
    (dispatch_event st event e).2 =
      { st with
        tagname_handlers := (dispatch_event st event e).2.tagname_handlers,
        tag_handlers := (dispatch_event st event e).2.tag_handlers } := rfl

theorem filter_tagname_map_tagname (l : List TagCallbackHandler)
    (i0 i1 : Nat) (v : String) :
    (l.map (fun h => Act.tagnameCb h.id i0 i1 v)).filter isTagnameAct =
      l.map (fun h => Act.tagnameCb h.id i0 i1 v) := by
  induction l with
  | nil => rfl
  | cons h t ih => simp [isTagnameAct, ih]

theorem filter_tagname_map_tag (l : List CallbackHandler) (v : String) :
    (l.map (fun h => Act.tagCb h.id v)).filter isTagnameAct = [] := by
  induction l with
  | nil => rfl
  | cons h t ih => simp [isTagnameAct, ih]

theorem filter_tag_map_tagname (l : List TagCallbackHandler)
    (i0 i1 : Nat) (v : String) :
    (l.map (fun h => Act.tagnameCb h.id i0 i1 v)).filter isTagAct = [] := by
  induction l with
  | nil => rfl
  | cons h t ih => simp [isTagAct, ih]

theorem filter_tag_map_tag (l : List CallbackHandler) (v : String) :
    (l.map (fun h => Act.tagCb h.id v)).filter isTagAct =
      l.map (fun h => Act.tagCb h.id v) := by
  induction l with
  | nil => rfl
  | cons h t ih => simp [isTagAct, ih]

theorem dispatch_filter_tagname (st : Botnana) (event e : String) :
    (dispatch_event st event e).1.filter isTagnameAct =
      tagname_obs st event e := by
  rw [dispatch_event_trace]
  simp only [List.filter_append, internal_obs, tagname_obs, tag_obs,
    filter_tagname_map_tagname, filter_tagname_map_tag]
  split <;> simp [isTagnameAct]

theorem dispatch_filter_tag (st : Botnana) (event e : String) :
    (dispatch_event st event e).1.filter isTagAct = tag_obs st event e := by
  rw [dispatch_event_trace]
  simp only [List.filter_append, internal_obs, tagname_obs, tag_obs,
    filter_tag_map_tagname, filter_tag_map_tag]
  split <;> simp [isTagAct]

theorem mem_alistSet {α : Type} {m : List (String × α)} {k : String} {v : α}
    {p : String × α} (hp : p ∈ alistSet m k v) : p = (k, v) ∨ p ∈ m := by
  simp only [alistSet, List.mem_map] at hp
  rcases hp with ⟨q, hq, hval⟩
  by_cases h : (q.1 == k) = true
  · rw [if_pos h] at hval
    exact Or.inl hval.symm
  · rw [if_neg h] at hval
    exact Or.inr (hval ▸ hq)

theorem mem_alistRemove {α : Type} {m : List (String × α)} {k : String}
    {p : String × α} (hp : p ∈ alistRemove m k) : p ∈ m :=
  (List.mem_filter.mp hp).1

theorem registry_wf_update {α : Type} (m : List (String × List α)) (k : String)
    (r : List α) (h : registry_wf m) :
    registry_wf (if r.isEmpty then alistRemove m k else alistSet m k r) := by
  by_cases hemp : r.isEmpty
  · rw [if_pos hemp]
    intro p hp
    exact h p (mem_alistRemove hp)
  · rw [if_neg hemp]
    intro p hp
    rcases mem_alistSet hp with hpe | hm
    · rw [hpe]
      intro hnil
      exact hemp (by simp at hnil; simp [hnil])
    · exact h p hm

theorem dispatch_event_wf (st : Botnana) (event e : String)
    (h1 : registry_wf st.tagname_handlers) (h2 : registry_wf st.tag_handlers) :
    registry_wf (dispatch_event st event e).2.tagname_handlers ∧
    registry_wf (dispatch_event st event e).2.tag_handlers := by
  constructor
  · rw [dispatch_event_tn]
    cases alistGet st.tagname_handlers (key0 event) with
    | none => exact h1
    | some hs => exact registry_wf_update _ _ _ h1
  · rw [dispatch_event_tg]
    cases alistGet st.tag_handlers event with
    | none => exact h2
    | some hs => exact registry_wf_update _ _ _ h2

theorem dispatch_event_singleton (st : Botnana) (event e : String)
    (c c' i j : Nat)
    (hn : st.tagname_handlers = [(key0 event, [⟨c, i⟩])])
    (hg : st.tag_handlers = [(event, [⟨c', j⟩])]) :
    (dispatch_event st event e).2.tagname_handlers =
      (if c = 1 then [] else [(key0 event, [⟨c - 1, i⟩])]) ∧
    (dispatch_event st event e).2.tag_handlers =
      (if c' = 1 then [] else [(event, [⟨c' - 1, j⟩])]) := by
  have hgn : alistGet st.tagname_handlers (key0 event) = some [⟨c, i⟩] := by
    rw [hn]; simp [alistGet]
  have hgg : alistGet st.tag_handlers event = some [⟨c', j⟩] := by
    rw [hg]; simp [alistGet]
  constructor
  · rw [dispatch_event_tn, hgn]
    rcases c with _ | _ | c <;>
      simp [run_tagname_handlers, TagCallbackHandler.step, hn, alistSet,
        alistRemove]
  · rw [dispatch_event_tg, hgg]
    rcases c' with _ | _ | c' <;>
      simp [run_tag_handlers, CallbackHandler.step, hg, alistSet, alistRemove]

theorem C4_pos : ∀ (N : Nat) (st : Botnana) (event e : String) (i j : Nat),
    st.tagname_handlers = [(key0 event, [⟨N + 1, i⟩])] →
    st.tag_handlers = [(event, [⟨N + 1, j⟩])] →
    ((dispatch_iter event e st (N + 1)).1.filter isTagnameAct).length = N + 1 ∧
    ((dispatch_iter event e st (N + 1)).1.filter isTagAct).length = N + 1 ∧
    (dispatch_iter event e st (N + 1)).2.tagname_handlers = [] ∧
    (dispatch_iter event e st (N + 1)).2.tag_handlers = [] := by
  intro N
  induction N with
  | zero =>
    intro st event e i j hn hg
    have hs := dispatch_event_singleton st event e 1 1 i j hn hg
    have hgn : alistGet st.tagname_handlers (key0 event) = some [⟨1, i⟩] := by
      rw [hn]; simp [alistGet]
    have hgg : alistGet st.tag_handlers event = some [⟨1, j⟩] := by
      rw [hg]; simp [alistGet]
    simp [dispatch_iter, List.filter_append, dispatch_filter_tagname,
      dispatch_filter_tag, tagname_obs, tag_obs, hgn, hgg, hs.1, hs.2]
  | succ n ih =>
    intro st event e i j hn hg
    have hs := dispatch_event_singleton st event e (n + 2) (n + 2) i j hn hg
    have h1 : (dispatch_event st event e).2.tagname_handlers =
        [(key0 event, [⟨n + 1, i⟩])] := by
      rw [hs.1]; simp
    have h2 : (dispatch_event st event e).2.tag_handlers =
        [(event, [⟨n + 1, j⟩])] := by
      rw [hs.2]; simp
    have ihr := ih (dispatch_event st event e).2 event e i j h1 h2
    have hgn : alistGet st.tagname_handlers (key0 event) =
        some [⟨n + 2, i⟩] := by
      rw [hn]; simp [alistGet]
    have hgg : alistGet st.tag_handlers event = some [⟨n + 2, j⟩] := by
      rw [hg]; simp [alistGet]
    have hstep : dispatch_iter event e st (n + 1 + 1) =
        ((dispatch_event st event e).1 ++
          (dispatch_iter event e (dispatch_event st event e).2 (n + 1)).1,
         (dispatch_iter event e (dispatch_event st event e).2 (n + 1)).2) := rfl
    rw [hstep]
    have hf1 : ((dispatch_event st event e).1.filter isTagnameAct).length = 1 := by
      rw [dispatch_filter_tagname]
      simp [tagname_obs, hgn]
    have hf2 : ((dispatch_event st event e).1.filter isTagAct).length = 1 := by
      rw [dispatch_filter_tag]
      simp [tag_obs, hgg]
    refine ⟨?_, ?_, by simpa using ihr.2.2.1, by simpa using ihr.2.2.2⟩
    · simp only [List.filter_append, List.length_append, hf1, ihr.1]
      omega
    · simp only [List.filter_append, List.length_append, hf2, ihr.2.1]
      omega

theorem C4_zero : ∀ (n : Nat) (st : Botnana) (event e : String) (i j : Nat),
    st.tagname_handlers = [(key0 event, [⟨0, i⟩])] →
    st.tag_handlers = [(event, [⟨0, j⟩])] →
    ((dispatch_iter event e st n).1.filter isTagnameAct).length = n ∧
    ((dispatch_iter event e st n).1.filter isTagAct).length = n ∧
    (dispatch_iter event e st n).2.tagname_handlers = st.tagname_handlers ∧
    (dispatch_iter event e st n).2.tag_handlers = st.tag_handlers := by
  intro n
  induction n with
  | zero =>
    intro st event e i j hn hg
    simp [dispatch_iter]
  | succ n ih =>
    intro st event e i j hn hg
    have hs := dispatch_event_singleton st event e 0 0 i j hn hg
    have h1 : (dispatch_event st event e).2.tagname_handlers =
        [(key0 event, [⟨0, i⟩])] := by
      rw [hs.1]; simp
    have h2 : (dispatch_event st event e).2.tag_handlers =
        [(event, [⟨0, j⟩])] := by
      rw [hs.2]; simp
    have ihr := ih (dispatch_event st event e).2 event e i j h1 h2
    have hgn : alistGet st.tagname_handlers (key0 event) = some [⟨0, i⟩] := by
      rw [hn]; simp [alistGet]
    have hgg : alistGet st.tag_handlers event = some [⟨0, j⟩] := by
      rw [hg]; simp [alistGet]
    have hstep : dispatch_iter event e st (n + 1) =
        ((dispatch_event st event e).1 ++
          (dispatch_iter event e (dispatch_event st event e).2 n).1,
         (dispatch_iter event e (dispatch_event st event e).2 n).2) := rfl
    rw [hstep]
    have hf1 : ((dispatch_event st event e).1.filter isTagnameAct).length = 1 := by
      rw [dispatch_filter_tagname]
      simp [tagname_obs, hgn]
    have hf2 : ((dispatch_event st event e).1.filter isTagAct).length = 1 := by
      rw [dispatch_filter_tag]
      simp [tag_obs, hgg]
    refine ⟨?_, ?_, ?_, ?_⟩
    · simp only [List.filter_append, List.length_append, hf1, ihr.1]
      omega
    · simp only [List.filter_append, List.length_append, hf2, ihr.2.1]
      omega
    · simpa [h1, hn] using ihr.2.2.1
    · simpa [h2, hg] using ihr.2.2.2

/-- C4: a handler registered with count N+1 fires exactly N+1 times over
matching dispatched events and is then pruned, after which its key is gone
from the registry map; a count-0 handler fires on every matching event and
the registry is left unchanged; and one dispatch step preserves the
invariant that no key maps to an empty handler vector (an emptied vector
removes its key).  All three parts hold for both the tagname (indexed) and
tag (simple) registries. -/
theorem claim_C4_handler_expiry :
    (∀ (N : Nat) (st : Botnana) (event e : String) (i j : Nat),
      st.tagname_handlers = [(key0 event, [⟨N + 1, i⟩])] →
      st.tag_handlers = [(event, [⟨N + 1, j⟩])] →
      ((dispatch_iter event e st (N + 1)).1.filter isTagnameAct).length = N + 1 ∧
      ((dispatch_iter event e st (N + 1)).1.filter isTagAct).length = N + 1 ∧
      (dispatch_iter event e st (N + 1)).2.tagname_handlers = [] ∧
      (dispatch_iter event e st (N + 1)).2.tag_handlers = []) ∧
    (∀ (n : Nat) (st : Botnana) (event e : String) (i j : Nat),
      st.tagname_handlers = [(key0 event, [⟨0, i⟩])] →
      st.tag_handlers = [(event, [⟨0, j⟩])] →
      ((dispatch_iter event e st n).1.filter isTagnameAct).length = n ∧
      ((dispatch_iter event e st n).1.filter isTagAct).length = n ∧
      (dispatch_iter event e st n).2.tagname_handlers = st.tagname_handlers ∧
      (dispatch_iter event e st n).2.tag_handlers = st.tag_handlers) ∧
    (∀ st event e, registry_wf st.tagname_handlers →
      registry_wf st.tag_handlers →
      registry_wf (dispatch_event st event e).2.tagname_handlers ∧
      registry_wf (dispatch_event st event e).2.tag_handlers) :=
  ⟨C4_pos, C4_zero, dispatch_event_wf⟩

/-- Concrete engine with one count-3 handler in each registry under key k. -/
def C4state : Botnana :=
  { Botnana.new with
    tagname_handlers := [("k", [⟨3, 1⟩])]
    tag_handlers := [("k", [⟨3, 2⟩])] }

/-- Witness for C4: a count-3 handler fires three times over three matching
events and both registries end up empty. -/
theorem claim_C4_witness :
    ((dispatch_iter "k" "v" C4state 3).1.filter isTagnameAct).length = 3 ∧
    ((dispatch_iter "k" "v" C4state 3).1.filter isTagAct).length = 3 ∧
    (dispatch_iter "k" "v" C4state 3).2.tagname_handlers = [] ∧
    (dispatch_iter "k" "v" C4state 3).2.tag_handlers = [] :=
  claim_C4_handler_expiry.1 2 C4state "k" "v" 1 2 (by decide) (by decide)

/-- Concrete engine with one permanent tagname handler under key a. -/
def C3state : Botnana :=
  { Botnana.new with tagname_handlers := [("a", [⟨0, 5⟩])] }

/-- Counterexample to C3 as stated: for event key a.1.2 the handler receives
the index pair (2, 1) - the third segment lands in slot 0 and the second in
slot 1 - not (1, 2) as the claim's right-alignment would give; for a.7 the
handler receives (7, 0), not (0, 7). -/
theorem claim_C3_counterexample :
    (dispatch_event C3state "a.1.2" "v").1 = [Act.tagnameCb 5 2 1 "v"] ∧
    (dispatch_event C3state "a.1.2" "v").1 ≠ [Act.tagnameCb 5 1 2 "v"] ∧
    (dispatch_event C3state "a.7" "v").1 = [Act.tagnameCb 5 7 0 "v"] ∧
    (dispatch_event C3state "a.7" "v").1 ≠ [Act.tagnameCb 5 0 7 "v"] := by
  decide

/-- C3 as amended: segment 0 is the lookup key and up to two segments after
it are parsed as unsigned indices, but segment i (1-based, len =
min(segments, 3)) lands in slot len - i - 1, so key s0.s1 yields the array
[s1, 0] and key s0.s1.s2 yields [s2, s1]; a non-numeric or absent segment
leaves 0 in its slot (Option.getD 0 of the parse), and a parse failure
never aborts dispatch of the event or of the rest of the frame (dispatch is
total and each pair's trace is simply appended before the remaining pairs
are processed). -/
theorem claim_C3_index_alignment :
    (∀ parse tag, tag_index_loop parse tag = tagIndices parse tag) ∧
    (∀ parse s0 s1, tag_index_loop parse [s0, s1] = ((parse s1).getD 0, 0)) ∧
    (∀ parse s0 s1 s2 rest, tag_index_loop parse (s0 :: s1 :: s2 :: rest) =
      ((parse s2).getD 0, (parse s1).getD 0)) ∧
    (∀ st event e ps, (dispatch_pairs st ((event, e) :: ps)).1 =
      (dispatch_event st event e).1 ++
        (dispatch_pairs (dispatch_event st event e).2 ps).1) := by
  refine ⟨tag_index_loop_eq, fun parse s0 s1 => ?_,
    fun parse s0 s1 s2 rest => ?_, fun st ev e ps => rfl⟩
  · rw [tag_index_loop_eq]
    rfl
  · rw [tag_index_loop_eq]
    rfl

/-- Botnana::execute_on_send_cb: invoke the message-sent callback when one
is registered. -/
def execute_on_send_cb (st : Botnana) (p : Payload) : List Act :=
  if st.on_send_cb then [Act.onSend p] else []

/-- Botnana::evaluate: when a WebSocket send handle exists, wrap the script
in the script.evaluate envelope, invoke on_send, and push the frame into
the channel feeding the outbound relay; without a handle, do nothing.  The
channel send cannot fail while the receiver thread lives, so the error
branch is not taken in this model. -/
def evaluate (st : Botnana) (script : String) : List Act :=
  if st.ws_out then
    execute_on_send_cb st (Payload.eval script) ++
      (if st.user_sender then [Act.chanSend (Payload.eval script)] else [])
  else []

/-- Botnana::send_message: like evaluate but the text is sent as given. -/
def send_message (st : Botnana) (msg : String) : List Act :=
  if st.ws_out then
    execute_on_send_cb st (Payload.raw msg) ++
      (if st.user_sender then [Act.chanSend (Payload.raw msg)] else [])
  else []

/-- Botnana::send_script_to_buffer: when a send handle exists, append the
newline-terminated script to the outbound script queue; otherwise drop it. -/
def send_script_to_buffer (st : Botnana) (script : String) : Botnana :=
  if st.ws_out then
    { st with scripts_buffer := st.scripts_buffer ++ [script ++ "\n"] }
  else st

/-- Botnana::pop_scripts_buffer: pop up to scripts_pop_count fragments from
the front of the queue, concatenate them, and evaluate the result. -/
def pop_scripts_buffer (st : Botnana) : Botnana × List Act :=
  let len := min st.scripts_pop_count st.scripts_buffer.length
  let msg := String.join (st.scripts_buffer.take len)
  let st2 := { st with scripts_buffer := st.scripts_buffer.drop len }
  (st2, evaluate st2 msg)

/-- The batch selection inside send_internal_query_command: drain up to
query_count one-shot init queries from the front, or else take up to
query_count cyclic queries starting at the persisted cursor, setting the
cursor to 0 when the batch reaches the end of the list and to the batch end
otherwise. -/
def query_batch (st : Botnana) : List String × Botnana :=
  if st.init_queries.length > 0 then
    let len := min st.init_queries.length st.query_count
    (st.init_queries.take len,
      { st with init_queries := st.init_queries.drop len })
  else
    let start := st.last_query
    let e := min (start + st.query_count) st.cyclic_queries.length
    ((st.cyclic_queries.drop start).take (e - start),
      { st with last_query := if e = st.cyclic_queries.length then 0 else e })

/-- Botnana::send_internal_query_command: the selected batch is concatenated
and evaluated as one command when non-empty; the returned count is the
number of queries in the batch. -/
def send_internal_query_command (st : Botnana) : Nat × Botnana × List Act :=
  let b := query_batch st
  (b.1.length, b.2,
    if b.1.length > 0 then evaluate b.2 (String.join b.1) else [])

/-- One non-teardown iteration of the POLL thread loop: if the script queue
is non-empty, pop and send a script batch; then (independently) run the
status-query step; if neither produced a command, send the motion.poll
heartbeat frame through the thread's own WebSocket handle. -/
def poll_tick (st : Botnana) : Botnana × List Act :=
  let r1 := if st.scripts_buffer.length > 0 then pop_scripts_buffer st
            else (st, [])
  let q := send_internal_query_command r1.1
  let acts3 :=
    if st.scripts_buffer.length = 0 ∧ q.1 = 0 then [Act.wsSend Payload.poll]
    else []
  (q.2.1, r1.2 ++ q.2.2 ++ acts3)

/-- Iterated query steps (the poll loop with an empty script queue),
collecting the successive batches. -/
def query_iter (st : Botnana) : Nat → List (List String) × Botnana
  | 0 => ([], st)
  | n + 1 =>
    let b := query_batch st
    let r := query_iter b.2 n
    (b.1 :: r.1, r.2)

/-- Botnana::connect up to the thread spawn: a second call while the
connecting flag is set returns at once; otherwise the flag is set, a fresh
user-sender channel is installed, and the handshake thread is spawned. -/
def connect (st : Botnana) : Botnana × List Act :=
  if st.is_connecting then (st, [])
  else
    ({ st with is_connecting := true, user_sender := true },
     [Act.spawnThread "Try Connection"])

/-- Client::execute_on_error_cb: the WebSocket handler's error reporter only
invokes the registered connection-error callback; it touches no engine
state. -/
def client_execute_on_error_cb (st : Botnana) (msg : String) : List Act :=
  if st.on_error_cb then [Act.onError msg] else []

/-- The cleanup run when the WebSocket client event loop exits: drop the
sender handles, clear the script queue, reset both connection flags.  It
performs no boundary action. -/
def post_event_loop_cleanup (st : Botnana) : Botnana :=
  { st with
    user_sender := false, ws_out := false, scripts_buffer := [],
    is_connecting := false, is_connected := false }

/-- Botnana::execute_on_error_cb: clear all connection state, then invoke
the connection-error callback when one is registered. -/
def execute_on_error_cb (st : Botnana) (msg : String) : Botnana × List Act :=
  ({ st with
      is_connecting := false, is_connected := false,
      user_sender := false, ws_out := false, scripts_buffer := [] },
   if st.on_error_cb then [Act.onError msg] else [])

/-- The four terminal transport events of one connection. -/
inductive TermEvent where
  | handshakeFailure (err : String)
  | abruptClose (code reason : String)
  | watchdogTimeout
  | sendFailure (err : String)

/-- End-to-end handling of a terminal transport event: the handler-side
notification (Client::on_error, Client::on_close or Client::on_timeout,
which also shuts the transport down abruptly) followed by the post-event-
loop cleanup; a send failure detected in send_message/evaluate runs
Botnana::execute_on_error_cb, which notifies and clears in one step.  No
path spawns a reconnect. -/
def terminal_transition (st : Botnana) (ev : TermEvent) : Botnana × List Act :=
  match ev with
  | .handshakeFailure err =>
    (post_event_loop_cleanup st, client_execute_on_error_cb st (err ++ "\n"))
  | .abruptClose code reason =>
    (post_event_loop_cleanup st,
      client_execute_on_error_cb st
        ("WS Client close code = " ++ code ++ ", reason = " ++ reason ++ "\n"))
  | .watchdogTimeout =>
    (post_event_loop_cleanup st,
      client_execute_on_error_cb st "WS Client timeout!\n" ++ [Act.wsShutdown])
  | .sendFailure err =>
    execute_on_error_cb st ("Send Message Error: " ++ err ++ "\n")

/-- Recognizer for connection-error notifications. -/
def isErrorAct : Act → Bool
  | .onError _ => true
  | _ => false

/-- Recognizer for thread spawns (a reconnect would be one). -/
def isSpawnAct : Act → Bool
  | .spawnThread _ => true
  | _ => false

theorem query_batch_flags (st : Botnana) :
    (query_batch st).2.ws_out = st.ws_out ∧
    (query_batch st).2.user_sender = st.user_sender ∧
    (query_batch st).2.on_send_cb = st.on_send_cb ∧
    (query_batch st).2.cyclic_queries = st.cyclic_queries ∧
    (query_batch st).2.query_count = st.query_count := by
  by_cases hi : st.init_queries.length > 0 <;> simp [query_batch, hi]

theorem query_batch_pop (st : Botnana) :
    (query_batch (pop_scripts_buffer st).1).1 = (query_batch st).1 := by
  by_cases hi : st.init_queries.length > 0 <;>
    simp [query_batch, pop_scripts_buffer, hi]

theorem siqc_acts (st : Botnana) (hw : st.ws_out = true)
    (hu : st.user_sender = true) (hcb : st.on_send_cb = false) :
    (send_internal_query_command st).2.2 =
      if 0 < (query_batch st).1.length then
        [Act.chanSend (Payload.eval (String.join (query_batch st).1))]
      else [] := by
  have h2 := (query_batch_flags st).1
  have h3 := (query_batch_flags st).2.1
  have h4 := (query_batch_flags st).2.2.1
  rw [hw] at h2
  rw [hu] at h3
  rw [hcb] at h4
  simp [send_internal_query_command, evaluate, execute_on_send_cb, h2, h3, h4]

theorem siqc_len (st : Botnana) :
    (send_internal_query_command st).1 = (query_batch st).1.length := rfl

theorem siqc_state (st : Botnana) :
    (send_internal_query_command st).2.1 = (query_batch st).2 := rfl

theorem pop_flags (st : Botnana) :
    (pop_scripts_buffer st).1.ws_out = st.ws_out ∧
    (pop_scripts_buffer st).1.user_sender = st.user_sender ∧
    (pop_scripts_buffer st).1.on_send_cb = st.on_send_cb := by
  simp [pop_scripts_buffer]

theorem pop_acts (st : Botnana) (hw : st.ws_out = true)
    (hu : st.user_sender = true) (hcb : st.on_send_cb = false) :
    (pop_scripts_buffer st).2 =
      [Act.chanSend (Payload.eval (String.join (st.scripts_buffer.take
        (min st.scripts_pop_count st.scripts_buffer.length))))] := by
  simp [pop_scripts_buffer, evaluate, execute_on_send_cb, hw, hu, hcb]

/-- Concrete tick with a pending script and a pending cyclic query. -/
def C2state : Botnana :=
  { Botnana.new with
    ws_out := true
    user_sender := true
    scripts_buffer := ["s\n"]
    cyclic_queries := ["q\n"] }

/-- Counterexample to C2 as stated: on a tick whose script queue is
non-empty, the POLL loop still runs the status-query step (the two branches
are independent ifs, not an else chain), so the script batch and a query
batch go out in the same tick. -/
theorem claim_C2_counterexample :
    C2state.scripts_buffer ≠ [] ∧
    (poll_tick C2state).2 =
      [Act.chanSend (Payload.eval "s\n"), Act.chanSend (Payload.eval "q\n")] ∧
    Act.chanSend (Payload.eval "q\n") ∈ (poll_tick C2state).2 := by
  decide

/-- C2 as amended: on every non-teardown tick, a non-empty script queue
produces one concatenated script command, after which the status-query step
still runs and may send a query batch in the same tick (so the two are not
mutually exclusive), and the heartbeat poll frame is sent exactly when the
tick produced neither a script command nor a query; the poll frame is never
sent on a script tick. -/
theorem claim_C2_poll_priority :
    ∀ st : Botnana, st.ws_out = true → st.user_sender = true →
    st.on_send_cb = false →
    ((st.scripts_buffer.length = 0 → (query_batch st).1.length = 0 →
      (poll_tick st).2 = [Act.wsSend Payload.poll]) ∧
     (st.scripts_buffer.length = 0 → 0 < (query_batch st).1.length →
      (poll_tick st).2 =
        [Act.chanSend (Payload.eval (String.join (query_batch st).1))]) ∧
     (0 < st.scripts_buffer.length →
      (poll_tick st).2 =
        Act.chanSend (Payload.eval (String.join (st.scripts_buffer.take
          (min st.scripts_pop_count st.scripts_buffer.length)))) ::
        (if 0 < (query_batch st).1.length then
          [Act.chanSend (Payload.eval (String.join (query_batch st).1))]
         else []) ∧
      Act.wsSend Payload.poll ∉ (poll_tick st).2)) := by
  intro st hw hu hcb
  refine ⟨fun h0 hq => ?_, fun h0 hq => ?_, fun hs => ?_⟩
  · simp [poll_tick, h0, siqc_len, siqc_acts st hw hu hcb, hq]
  · simp [poll_tick, h0, siqc_len, siqc_acts st hw hu hcb, hq, Nat.pos_iff_ne_zero]
    exact List.ne_nil_of_length_pos hq
  · have hpf := pop_flags st
    have hw2 : (pop_scripts_buffer st).1.ws_out = true := by rw [hpf.1, hw]
    have hu2 : (pop_scripts_buffer st).1.user_sender = true := by
      rw [hpf.2.1, hu]
    have hcb2 : (pop_scripts_buffer st).1.on_send_cb = false := by
      rw [hpf.2.2, hcb]
    have hqa := siqc_acts (pop_scripts_buffer st).1 hw2 hu2 hcb2
    rw [query_batch_pop] at hqa
    have hql : (send_internal_query_command (pop_scripts_buffer st).1).1 =
        (query_batch st).1.length := by
      rw [siqc_len, query_batch_pop]
    constructor
    · simp [poll_tick, hs, Nat.pos_iff_ne_zero.mp hs, hqa, hql,
        pop_acts st hw hu hcb]
    · simp [poll_tick, hs, Nat.pos_iff_ne_zero.mp hs, hqa, hql,
        pop_acts st hw hu hcb]

/-- Witness for C2 as amended: an idle connected tick (empty queues) sends
exactly one heartbeat poll frame. -/
theorem claim_C2_witness :
    (poll_tick { Botnana.new with ws_out := true, user_sender := true }).2 =
      [Act.wsSend Payload.poll] :=
  (claim_C2_poll_priority
    { Botnana.new with ws_out := true, user_sender := true }
    (by decide) (by decide) (by decide)).1 (by decide) (by decide)

/-- Engine with the connected flag set but the connecting flag clear, the
transient shape the teardown path passes through between resetting the two
flags. -/
def C8state : Botnana :=
  { Botnana.new with is_connected := true }

/-- Counterexample to C8 as stated: connect() tests only the connecting
flag, so in a state that is connected but not connecting it does not return
as a no-op - it mutates the engine (sets the connecting flag, installs a
fresh user-sender channel) and spawns a handshake thread. -/
theorem claim_C8_counterexample :
    C8state.is_connected = true ∧ C8state.is_connecting = false ∧
    (connect C8state).2 ≠ [] ∧ (connect C8state).1 ≠ C8state := by
  decide

/-- C8 as amended: a call to connect() while the connecting flag is set
returns immediately as a no-op - no thread is spawned and no engine state
is modified.  (The connecting flag stays set for as long as a session is
connected, so the steady connected state is covered; only the flag, not
the connected bit, is consulted.) -/
theorem claim_C8_connect_guard :
    ∀ st : Botnana, st.is_connecting = true → connect st = (st, []) := by
  intro st h
  simp [connect, h]

/-- Witness for C8 as amended at a concrete connecting engine. -/
theorem claim_C8_witness :
    connect { Botnana.new with is_connecting := true } =
      ({ Botnana.new with is_connecting := true }, []) :=
  claim_C8_connect_guard { Botnana.new with is_connecting := true } (by decide)

/-- C9: every terminal transport event (handshake failure, abrupt close,
watchdog timeout, send failure) leaves the engine with the send handles
cleared, the script queue empty and both connection flags false, produces
exactly one connection-error notification at the boundary, and spawns no
reconnect thread. -/
theorem claim_C9_terminal_cleanup :
    ∀ (st : Botnana) (ev : TermEvent), st.on_error_cb = true →
    ((terminal_transition st ev).1.user_sender = false ∧
     (terminal_transition st ev).1.ws_out = false ∧
     (terminal_transition st ev).1.scripts_buffer = [] ∧
     (terminal_transition st ev).1.is_connecting = false ∧
     (terminal_transition st ev).1.is_connected = false) ∧
    ((terminal_transition st ev).2.filter isErrorAct).length = 1 ∧
    (terminal_transition st ev).2.filter isSpawnAct = [] := by
  intro st ev h
  cases ev <;>
    simp [terminal_transition, post_event_loop_cleanup, execute_on_error_cb,
      client_execute_on_error_cb, h, isErrorAct, isSpawnAct]

/-- Witness for C9: a watchdog timeout on a connected engine with an error
callback registered clears everything and notifies exactly once. -/
theorem claim_C9_witness :
    ((terminal_transition
        { Botnana.new with on_error_cb := true } TermEvent.watchdogTimeout).1.user_sender = false ∧
     (terminal_transition
        { Botnana.new with on_error_cb := true } TermEvent.watchdogTimeout).1.ws_out = false ∧
     (terminal_transition
        { Botnana.new with on_error_cb := true } TermEvent.watchdogTimeout).1.scripts_buffer = [] ∧
     (terminal_transition
        { Botnana.new with on_error_cb := true } TermEvent.watchdogTimeout).1.is_connecting = false ∧
     (terminal_transition
        { Botnana.new with on_error_cb := true } TermEvent.watchdogTimeout).1.is_connected = false) ∧
    ((terminal_transition
        { Botnana.new with on_error_cb := true } TermEvent.watchdogTimeout).2.filter isErrorAct).length = 1 ∧
    (terminal_transition
        { Botnana.new with on_error_cb := true } TermEvent.watchdogTimeout).2.filter isSpawnAct = [] :=
  claim_C9_terminal_cleanup { Botnana.new with on_error_cb := true }
    TermEvent.watchdogTimeout (by decide)

/-- C10: without a WebSocket send handle, send_message and evaluate produce
no boundary action at all (nothing is transmitted and neither the on_send
nor the on_error callback fires; in the model these functions touch no
state), and send_script_to_buffer leaves the engine, in particular its
script queue, unchanged - scripts submitted while disconnected are
discarded, not queued. -/
theorem claim_C10_disconnected_noop :
    ∀ (st : Botnana) (msg script : String), st.ws_out = false →
    send_message st msg = [] ∧ evaluate st script = [] ∧
    send_script_to_buffer st script = st := by
  intro st msg script h
  simp [send_message, evaluate, send_script_to_buffer, h]

/-- Witness for C10 on the freshly constructed (disconnected) engine. -/
theorem claim_C10_witness :
    send_message Botnana.new "m" = [] ∧ evaluate Botnana.new "s" = [] ∧
    send_script_to_buffer Botnana.new "s" = Botnana.new :=
  claim_C10_disconnected_noop Botnana.new "m" "s" (by decide)

/-- State of the WebSocket client handler: the watchdog-refreshed flag. -/
structure Client where
  is_watchdog_refreshed : Bool
deriving DecidableEq, Repr

/-- Actions of the WebSocket client handler: the connection-error callback,
an abrupt transport shutdown, rearming the watchdog timer, and forwarding a
received frame to the dispatcher channel. -/
inductive ClientAct where
  | errorCb (msg : String)
  | shutdown
  | rearm (ms : Nat)
  | forward (msg : String)
deriving DecidableEq, Repr

/-- Client::on_message: mark the watchdog refreshed, then forward non-empty
text frames into the dispatcher channel. -/
def Client.on_message (c : Client) (m : String) : Client × List ClientAct :=
  ({ c with is_watchdog_refreshed := true },
   if 0 < m.length then [ClientAct.forward m] else [])

/-- Client::on_timeout: if nothing arrived since the previous tick, report
the timeout through the connection-error callback and shut the transport
down abruptly (shutdown, not a graceful close); otherwise clear the flag
and silently rearm the 10-second timer. -/
def Client.on_timeout (c : Client) : Client × List ClientAct :=
  if !c.is_watchdog_refreshed then
    (c, [ClientAct.errorCb "WS Client timeout!\n", ClientAct.shutdown])
  else
    ({ c with is_watchdog_refreshed := false }, [ClientAct.rearm 10000])

/-- Events the WebSocket event loop feeds the handler: inbound text frames
and watchdog timer ticks. -/
inductive WsEv where
  | msg (m : String)
  | tick

/-- Run the client handler over a sequence of events, concatenating the
action traces. -/
def client_run (c : Client) : List WsEv → List ClientAct × Client
  | [] => ([], c)
  | ev :: evs =>
    let r1 := match ev with
      | WsEv.msg m => Client.on_message c m
      | WsEv.tick => Client.on_timeout c
    let r2 := client_run r1.1 evs
    (r1.2 ++ r2.1, r2.2)

theorem client_run_append (a b : List WsEv) (c : Client) :
    client_run c (a ++ b) =
      ((client_run c a).1 ++ (client_run (client_run c a).2 b).1,
       (client_run (client_run c a).2 b).2) := by
  induction a generalizing c with
  | nil => simp [client_run]
  | cons ev evs ih => simp [client_run, ih]

theorem client_run_msgs (ms : List String) (c : Client)
    (h : c.is_watchdog_refreshed = true) :
    (client_run c (ms.map WsEv.msg)).1 =
      (ms.filter (fun s => decide (0 < s.length))).map ClientAct.forward ∧
    (client_run c (ms.map WsEv.msg)).2.is_watchdog_refreshed = true := by
  induction ms generalizing c with
  | nil => simpa [client_run] using h
  | cons m ms ih =>
    have hrec := ih ⟨true⟩ rfl
    by_cases hm : 0 < m.length <;>
      simp [client_run, Client.on_message, hm, hrec.1, hrec.2]

/-- C5: receipt of any inbound message sets the watchdog-refreshed flag; a
timer tick with the flag clear invokes the connection-error callback with
the timeout diagnostic and shuts the transport down abruptly (shutdown, not
a graceful close); a tick with the flag set clears it and silently rearms
the fixed 10-second timer.  The last conjunct is the two-tick temporal run:
at least one message between ticks gives a silent rearm, no message in the
following period gives the error notification plus forced shutdown. -/
theorem claim_C5_watchdog :
    (∀ (c : Client) (m : String),
      (Client.on_message c m).1.is_watchdog_refreshed = true) ∧
    (∀ c : Client, c.is_watchdog_refreshed = false →
      Client.on_timeout c =
        (c, [ClientAct.errorCb "WS Client timeout!\n", ClientAct.shutdown])) ∧
    (∀ c : Client, c.is_watchdog_refreshed = true →
      Client.on_timeout c = (⟨false⟩, [ClientAct.rearm 10000])) ∧
    (∀ (c : Client) (m : String) (ms : List String),
      (client_run c
        (WsEv.msg m :: (ms.map WsEv.msg ++ [WsEv.tick, WsEv.tick]))).1 =
        ((m :: ms).filter (fun s => decide (0 < s.length))).map
            ClientAct.forward ++
          [ClientAct.rearm 10000] ++
          [ClientAct.errorCb "WS Client timeout!\n", ClientAct.shutdown]) := by
  refine ⟨fun c m => by simp [Client.on_message],
    fun c h => by simp [Client.on_timeout, h],
    fun c h => by simp [Client.on_timeout, h],
    fun c m ms => ?_⟩
  have hmsgs := client_run_msgs ms ⟨true⟩ rfl
  have hst : (client_run (⟨true⟩ : Client) (ms.map WsEv.msg)).2 = ⟨true⟩ := by
    have h2 := hmsgs.2
    cases hq : (client_run (⟨true⟩ : Client) (ms.map WsEv.msg)).2 with
    | mk b =>
      rw [hq] at h2
      simp at h2
      rw [h2]
  have hticks : (client_run (⟨true⟩ : Client) [WsEv.tick, WsEv.tick]).1 =
      [ClientAct.rearm 10000, ClientAct.errorCb "WS Client timeout!\n",
        ClientAct.shutdown] := by
    simp [client_run, Client.on_timeout]
  by_cases hm : 0 < m.length <;>
    simp [client_run, Client.on_message, Client.on_timeout, hm,
      client_run_append, hmsgs.1, hst, hticks]

/-- Witness for C5: a tick on a non-refreshed client yields the timeout
notification and the abrupt shutdown. -/
theorem claim_C5_witness :
    Client.on_timeout ⟨false⟩ =
      (⟨false⟩,
       [ClientAct.errorCb "WS Client timeout!\n", ClientAct.shutdown]) :=
  claim_C5_watchdog.2.1 ⟨false⟩ rfl

/-- The chunking while-loop of the register bridge's cyclic tick: split a
block of left words (starting at word offset start) into consecutive chunks
of at most 121 words, the wire limit for one combined read/write
operation.  Each element is (chunk start offset, chunk word count). -/
def mb_chunks (left start : Nat) : List (Nat × Nat) :=
  if left = 0 then []
  else if h : left > 121 then
    (start, 121) :: mb_chunks (left - 121) (start + 121)
  else [(start, left)]
termination_by left
decreasing_by omega

/-- Observable actions of one register-bridge cycle: one combined
read-input/write-holding exchange per chunk (read base 30001, write base
40001, plus the chunk's start offset; the written data is the chunk's slice
of the holding buffer), and the single publish of the inputs buffer. -/
inductive MbAct where
  | exchange (readAddr cnt writeAddr : Nat) (writeData : List Nat)
  | publish
deriving DecidableEq, Repr

/-- Process the chunk list of one cyclic tick: each chunk issues its
exchange; a successful exchange overwrites exactly the chunk's slice of the
inputs buffer (a response of the wrong size would make copy_from_slice
panic, modelled as none); a failed exchange is logged and leaves the slice
untouched, and the remaining chunks are still attempted.  After all chunks,
the inputs buffer is published exactly once. -/
def mb_cycle_chunks (dev : Nat → Option (List Nat)) (holding : List Nat) :
    List (Nat × Nat) → List Nat → Option (List MbAct × List Nat)
  | [], buf => some ([MbAct.publish], buf)
  | (start, cnt) :: rest, buf =>
    let wdata := (holding.drop start).take cnt
    let act := MbAct.exchange (30001 + start) cnt (40001 + start) wdata
    match dev start with
    | some resp =>
      if resp.length = cnt then
        (mb_cycle_chunks dev holding rest
          (buf.take start ++ resp ++ buf.drop (start + cnt))).map
          (fun r => (act :: r.1, r.2))
      else none
    | none =>
      (mb_cycle_chunks dev holding rest buf).map
        (fun r => (act :: r.1, r.2))

/-- One register-bridge cyclic tick over a B-word block: chunk the block
from offset 0 and run the exchanges; dev gives the device's response (the
cnt read input words) per chunk start offset, none for a failed exchange. -/
def mb_cycle_tick (B : Nat) (dev : Nat → Option (List Nat))
    (holding inputs : List Nat) : Option (List MbAct × List Nat) :=
  mb_cycle_chunks dev holding (mb_chunks B 0) inputs

theorem mb_chunks_200 : mb_chunks 200 0 = [(0, 121), (121, 79)] := by
  rw [mb_chunks]
  norm_num
  rw [mb_chunks]
  norm_num

/-- C6: over a 200-word block the cyclic tick issues exactly two combined
exchanges - words 0..120 at read address 30001 / write address 40001, and
words 121..199 at 30122 / 40122, each writing its own slice of the holding
buffer - and both are attempted whatever the outcomes; a successful chunk
overwrites exactly its own slice of the inputs buffer while a failed chunk
leaves its slice unchanged; and the inputs buffer is published exactly once,
after all chunks. -/
theorem claim_C6_register_chunking :
    ∀ (dev : Nat → Option (List Nat)) (holding inputs : List Nat),
    holding.length = 200 → inputs.length = 200 →
    (∀ l, dev 0 = some l → l.length = 121) →
    (∀ l, dev 121 = some l → l.length = 79) →
    mb_cycle_tick 200 dev holding inputs =
      some
        ([MbAct.exchange 30001 121 40001 (holding.take 121),
          MbAct.exchange 30122 79 40122 ((holding.drop 121).take 79),
          MbAct.publish],
         (match dev 0 with
          | some r => r
          | none => inputs.take 121) ++
         (match dev 121 with
          | some r => r
          | none => inputs.drop 121)) := by
  intro dev holding inputs hh hi h0 h1
  unfold mb_cycle_tick
  rw [mb_chunks_200]
  have hdrop200 : inputs.drop 200 = [] := by
    apply List.drop_eq_nil_of_le
    omega
  cases hd0 : dev 0 with
  | none =>
    cases hd1 : dev 121 with
    | none =>
      simp [mb_cycle_chunks, hd0, hd1]
    | some r1 =>
      have hl1 : r1.length = 79 := h1 r1 hd1
      simp [mb_cycle_chunks, hd0, hd1, hl1, hdrop200]
  | some r0 =>
    have hl0 : r0.length = 121 := h0 r0 hd0
    have hbuf1 : inputs.take 0 ++ r0 ++ inputs.drop (0 + 121) =
        r0 ++ inputs.drop 121 := by simp
    cases hd1 : dev 121 with
    | none =>
      simp [mb_cycle_chunks, hd0, hd1, hl0]
    | some r1 =>
      have hl1 : r1.length = 79 := h1 r1 hd1
      have htake : (r0 ++ inputs.drop 121).take 121 = r0 := by
        nth_rewrite 1 [← hl0]
        exact List.take_left r0 (inputs.drop 121)
      have hdrop : (r0 ++ inputs.drop 121).drop (121 + 79) = [] := by
        apply List.drop_eq_nil_of_le
        simp [hl0]
        omega
      simp [mb_cycle_chunks, hd0, hd1, hl0, hl1, htake, hdrop]

/-- Device model for the C6 witness: the first chunk succeeds with 121
words of value 5, the second chunk's exchange fails. -/
def C6dev : Nat → Option (List Nat) :=
  fun s => if s = 0 then some (List.replicate 121 5) else none

/-- Witness for C6: with a successful first chunk and a failed second
chunk, both exchanges are still issued, the first slice of the published
inputs is the fresh response while the second stays at its prior value. -/
theorem claim_C6_witness :
    mb_cycle_tick 200 C6dev (List.replicate 200 7) (List.replicate 200 0) =
      some
        ([MbAct.exchange 30001 121 40001 ((List.replicate 200 7).take 121),
          MbAct.exchange 30122 79 40122
            (((List.replicate 200 7).drop 121).take 79),
          MbAct.publish],
         (match C6dev 0 with
          | some r => r
          | none => (List.replicate 200 0).take 121) ++
         (match C6dev 121 with
          | some r => r
          | none => (List.replicate 200 0).drop 121)) :=
  claim_C6_register_chunking C6dev (List.replicate 200 7)
    (List.replicate 200 0) (List.length_replicate 200 7)
    (List.length_replicate 200 0)
    (by intro l h; simp [C6dev] at h; rw [← h]; exact List.length_replicate 121 5)
    (by intro l h; simp [C6dev] at h)

theorem C7_aux : ∀ (m : Nat) (st : Botnana), st.init_queries = [] →
    0 < st.query_count →
    st.cyclic_queries.length - st.last_query = m → 0 < m →
    (query_iter st ((m + st.query_count - 1) / st.query_count)).1.flatten =
      st.cyclic_queries.drop st.last_query ∧
    (query_iter st ((m + st.query_count - 1) / st.query_count)).2.last_query
      = 0 ∧
    (query_iter st
      ((m + st.query_count - 1) / st.query_count)).2.cyclic_queries =
      st.cyclic_queries ∧
    (query_iter st ((m + st.query_count - 1) / st.query_count)).2.init_queries
      = [] ∧
    (query_iter st ((m + st.query_count - 1) / st.query_count)).2.query_count
      = st.query_count := by
  intro m
  induction m using Nat.strong_induction_on with
  | _ m ih =>
    intro st hinit hB hm hpos
    have hk : (m + st.query_count - 1) / st.query_count =
        (m - 1) / st.query_count + 1 := by
      have he : m + st.query_count - 1 = (m - 1) + st.query_count := by omega
      rw [he, Nat.add_div_right _ hB]
    rw [hk]
    have hqb1 : (query_batch st).1 =
        (st.cyclic_queries.drop st.last_query).take
          (min (st.last_query + st.query_count) st.cyclic_queries.length -
            st.last_query) := by
      simp [query_batch, hinit]
    have hqb2 : (query_batch st).2 =
        { st with last_query :=
            (if min (st.last_query + st.query_count)
                st.cyclic_queries.length = st.cyclic_queries.length then 0
             else
               min (st.last_query + st.query_count)
                 st.cyclic_queries.length) } := by
      simp [query_batch, hinit]
    by_cases hend : m ≤ st.query_count
    · have hmin : min (st.last_query + st.query_count)
          st.cyclic_queries.length = st.cyclic_queries.length := by omega
      have hk0 : (m - 1) / st.query_count = 0 := Nat.div_eq_of_lt (by omega)
      rw [hk0]
      have hbatch : (query_batch st).1 =
          st.cyclic_queries.drop st.last_query := by
        rw [hqb1, hmin]
        rw [show st.cyclic_queries.length - st.last_query =
          (st.cyclic_queries.drop st.last_query).length by simp]
        exact List.take_length _
      have hst2 : (query_batch st).2 = { st with last_query := 0 } := by
        rw [hqb2, hmin]
        simp
      simp [query_iter, hbatch, hst2, hinit]
    · have hmin : min (st.last_query + st.query_count)
          st.cyclic_queries.length = st.last_query + st.query_count := by
        omega
      have hne : ¬(st.last_query + st.query_count =
          st.cyclic_queries.length) := by omega
      have hbatch : (query_batch st).1 =
          (st.cyclic_queries.drop st.last_query).take st.query_count := by
        rw [hqb1, hmin]
        congr 1
        omega
      have hst2 : (query_batch st).2 =
          { st with last_query := st.last_query + st.query_count } := by
        rw [hqb2, hmin]
        simp [hne]
      have harg : (m - st.query_count + st.query_count - 1) /
          st.query_count = (m - 1) / st.query_count := by
        congr 1
        omega
      have hmeas : ({ st with
          last_query := st.last_query + st.query_count } :
            Botnana).cyclic_queries.length -
          ({ st with last_query := st.last_query + st.query_count } :
            Botnana).last_query = m - st.query_count := by
        simp only []
        omega
      have ihr := ih (m - st.query_count) (by omega)
        { st with last_query := st.last_query + st.query_count }
        (by simp [hinit]) (by simpa using hB) hmeas (by omega)
      rw [harg] at ihr
      have hjoin : (st.cyclic_queries.drop st.last_query).take
            st.query_count ++
          st.cyclic_queries.drop (st.last_query + st.query_count) =
          st.cyclic_queries.drop st.last_query := by
        have h1 : st.cyclic_queries.drop (st.last_query + st.query_count) =
            (st.cyclic_queries.drop st.last_query).drop st.query_count := by
          rw [List.drop_drop]
        rw [h1, List.take_append_drop]
      simp only [query_iter, hbatch, hst2, List.flatten_cons]
      refine ⟨?_, ?_, ?_, ?_, ?_⟩
      · rw [ihr.1]
        simp [hjoin]
      · simpa using ihr.2.1
      · simpa using ihr.2.2.1
      · simpa using ihr.2.2.2.1
      · simpa using ihr.2.2.2.2

/-- C7: with no init queries pending, a query step starting at cursor c
takes exactly the cyclic queries in [c, min(c + B, L)) in list order and
moves the cursor to 0 when the batch end reaches L and to the batch end
otherwise (first conjunct); a non-empty batch is concatenated and sent as
one command (second conjunct); and starting from cursor 0 with batch size
B > 0 over a non-empty list, ceil(L / B) consecutive steps take every
cyclic query exactly once (their batches concatenate back to the list) and
return the cursor to 0 (third conjunct). -/
theorem claim_C7_cyclic_cursor :
    (∀ st : Botnana, st.init_queries = [] →
      (query_batch st).1 =
        (st.cyclic_queries.drop st.last_query).take
          (min (st.last_query + st.query_count) st.cyclic_queries.length -
            st.last_query) ∧
      (query_batch st).2.last_query =
        (if min (st.last_query + st.query_count) st.cyclic_queries.length =
            st.cyclic_queries.length then 0
         else min (st.last_query + st.query_count)
           st.cyclic_queries.length)) ∧
    (∀ st : Botnana, st.ws_out = true → st.user_sender = true →
      st.on_send_cb = false →
      (send_internal_query_command st).2.2 =
        if 0 < (query_batch st).1.length then
          [Act.chanSend (Payload.eval (String.join (query_batch st).1))]
        else []) ∧
    (∀ st : Botnana, st.init_queries = [] → 0 < st.query_count →
      0 < st.cyclic_queries.length → st.last_query = 0 →
      (query_iter st ((st.cyclic_queries.length + st.query_count - 1) /
          st.query_count)).1.flatten = st.cyclic_queries ∧
      (query_iter st ((st.cyclic_queries.length + st.query_count - 1) /
          st.query_count)).2.last_query = 0) := by
  refine ⟨fun st hinit => ?_, siqc_acts, fun st hinit hB hL hc => ?_⟩
  · constructor
    · simp [query_batch, hinit]
    · simp [query_batch, hinit]
  · have haux := C7_aux st.cyclic_queries.length st hinit hB (by omega) hL
    constructor
    · have h1 := haux.1
      rw [hc] at h1
      simpa using h1
    · exact haux.2.1

/-- Engine with three cyclic queries and batch size two. -/
def C7state : Botnana :=
  { Botnana.new with
    cyclic_queries := ["a\n", "b\n", "c\n"]
    query_count := 2 }

/-- Witness for C7: over ceil(3/2) = 2 steps from cursor 0 the three cyclic
queries are each taken once and the cursor wraps back to 0. -/
theorem claim_C7_witness :
    (query_iter C7state ((C7state.cyclic_queries.length +
        C7state.query_count - 1) / C7state.query_count)).1.flatten =
      C7state.cyclic_queries ∧
    (query_iter C7state ((C7state.cyclic_queries.length +
        C7state.query_count - 1) / C7state.query_count)).2.last_query = 0 :=
  claim_C7_cyclic_cursor.2.2 C7state (by decide) (by decide) (by decide)
    (by decide)
